import Mathlib

/-!
Verification of the critical-value classification and escalation core of
`src/critical_values_engine.py` (class `CriticalValuesEngine`).

Modelling conventions:
- Python numbers (ints and floats) are modelled as `ℚ`; all threshold
  comparisons in the source are order comparisons, which `ℚ` reflects exactly.
- Python dicts returned by `check_critical_value` are modelled as `AlertDict`,
  a record of optional fields: a `none` field models an absent dict key, so a
  `KeyError` on access corresponds to hitting a `none`.
- The wall clock (`datetime.now().isoformat()`) is passed in as an explicit
  `now : String` argument.
- Python truthiness of an optional numeric bound (`panic.get("low") and ...`)
  is falsy for a missing (`None`) bound and for a zero bound; this is embedded
  in `lowBreach`/`highBreach`.
- The source encodes the spec's PANIC tier as the severity string "CRITICAL"
  (with messages prefixed "PANIC ...") and the spec's CRITICAL tier as the
  severity string "HIGH" (messages prefixed "CRITICAL ..."); see
  `panicTierSeverity` and `criticalTierSeverity`.
- Numeric rendering inside alert messages uses `toString : ℚ → String`, which
  agrees with Python's rendering on the integral values exercised here.
-/

/-- One numeric entry of the `critical_ranges` dict
(src/critical_values_engine.py lines 33-56): optional critical bounds
`low`/`high`, a display `unit`, and optional panic bounds (the nested
`"panic"` dict). -/
structure NumericRanges where
  low : Option ℚ
  high : Option ℚ
  unit : String
  panicLow : Option ℚ
  panicHigh : Option ℚ
deriving DecidableEq

/-- An entry of the `critical_ranges` dict: either a numeric entry, or a
boolean-alert entry `{"alert": b, "priority": p}` (lines 58-59), dispatched on
by `isinstance(ranges.get("alert"), bool)` (line 92). -/
inductive TestRanges where
  | numeric (r : NumericRanges)
  | booleanAlert (alert : Bool) (priority : Option String)
deriving DecidableEq

/-- The static `critical_ranges` table built by `load_critical_ranges`
(src/critical_values_engine.py lines 31-60); `none` models a test name absent
from the dict. -/
def critical_ranges : String → Option TestRanges := fun test_name =>
  match test_name with
  | "glucose" => some (TestRanges.numeric ⟨some 40, some 500, "mg/dL", some 30, some 600⟩)
  | "sodium" => some (TestRanges.numeric ⟨some 120, some 160, "mEq/L", some 115, some 165⟩)
  | "potassium" => some (TestRanges.numeric ⟨some 2.5, some 6.5, "mEq/L", some 2.0, some 7.0⟩)
  | "calcium" => some (TestRanges.numeric ⟨some 6.0, some 13.0, "mg/dL", some 5.0, some 14.0⟩)
  | "creatinine" => some (TestRanges.numeric ⟨none, some 7.0, "mg/dL", none, some 10.0⟩)
  | "hemoglobin" => some (TestRanges.numeric ⟨some 7.0, some 20.0, "g/dL", some 5.0, some 22.0⟩)
  | "wbc" => some (TestRanges.numeric ⟨some 2.0, some 30.0, "K/μL", some 1.0, some 50.0⟩)
  | "platelets" => some (TestRanges.numeric ⟨some 50, some 1000, "K/μL", some 20, some 1500⟩)
  | "inr" => some (TestRanges.numeric ⟨none, some 4.5, "", none, some 6.0⟩)
  | "ph" => some (TestRanges.numeric ⟨some 7.20, some 7.60, "", some 7.10, some 7.70⟩)
  | "pco2" => some (TestRanges.numeric ⟨some 20, some 60, "mmHg", some 15, some 70⟩)
  | "po2" => some (TestRanges.numeric ⟨some 50, none, "mmHg", some 40, none⟩)
  | "troponin" => some (TestRanges.numeric ⟨none, some 0.04, "ng/mL", none, some 0.1⟩)
  | "bnp" => some (TestRanges.numeric ⟨none, some 900, "pg/mL", none, some 2000⟩)
  | "positive_blood_culture" => some (TestRanges.booleanAlert true (some "CRITICAL"))
  | "csf_positive" => some (TestRanges.booleanAlert true (some "CRITICAL"))
  | _ => none

/-- The dict returned by `check_critical_value`: each field is `some` when the
corresponding key is present. The numeric path (lines 116-125) sets all seven
keys; the boolean-alert path (line 94) sets only `severity` and `test`. -/
structure AlertDict where
  patient_id : Option String
  test : Option String
  value : Option ℚ
  unit : Option String
  severity : Option String
  message : Option String
  timestamp : Option String
deriving DecidableEq

/-- Python condition `bound and value < bound` for an optional low bound
(lines 100, 106): falsy when the bound is `None` or `0`, otherwise the strict
comparison `value < bound`. -/
def lowBreach (bound : Option ℚ) (value : ℚ) : Bool :=
  match bound with
  | none => false
  | some b => b != 0 && decide (value < b)

/-- Python condition `bound and value > bound` for an optional high bound
(lines 103, 109): falsy when the bound is `None` or `0`, otherwise the strict
comparison `value > bound`. -/
def highBreach (bound : Option ℚ) (value : ℚ) : Bool :=
  match bound with
  | none => false
  | some b => b != 0 && decide (value > b)

/-- Severity string the source assigns on the panic branches (lines 101, 104);
this is the source's encoding of the spec's PANIC tier. -/
def panicTierSeverity : String := "CRITICAL"

/-- Severity string the source assigns on the critical branches (lines 107,
110); this is the source's encoding of the spec's CRITICAL tier. -/
def criticalTierSeverity : String := "HIGH"

/-- The cascade of lines 96-112 of `check_critical_value`: panic low, panic
high, critical low, critical high, first match wins; returns the
`(severity, alert)` pair of locals, or `none` when no branch fires. -/
def checkNumeric (test_name : String) (value : ℚ) (r : NumericRanges) :
    Option (String × String) :=
  if lowBreach r.panicLow value then
    some (panicTierSeverity,
      "PANIC LOW: " ++ (test_name ++ " = " ++ toString value ++ " " ++ r.unit
        ++ " (< " ++ toString (r.panicLow.getD 0) ++ ")"))
  else if highBreach r.panicHigh value then
    some (panicTierSeverity,
      "PANIC HIGH: " ++ (test_name ++ " = " ++ toString value ++ " " ++ r.unit
        ++ " (> " ++ toString (r.panicHigh.getD 0) ++ ")"))
  else if lowBreach r.low value then
    some (criticalTierSeverity,
      "CRITICAL LOW: " ++ (test_name ++ " = " ++ toString value ++ " " ++ r.unit
        ++ " (< " ++ toString (r.low.getD 0) ++ ")"))
  else if highBreach r.high value then
    some (criticalTierSeverity,
      "CRITICAL HIGH: " ++ (test_name ++ " = " ++ toString value ++ " " ++ r.unit
        ++ " (> " ++ toString (r.high.getD 0) ++ ")"))
  else none

/-- Embedding of `CriticalValuesEngine.check_critical_value` (lines 85-127). Unknown tests
return `none`; boolean-alert tests return a dict holding only `severity`
(the entry's priority, default "HIGH") and `test`; numeric tests run the
threshold cascade and, on a hit, return the full seven-key dict. -/
def check_critical_value (test_name : String) (value : ℚ) (patient_id : String)
    (now : String) : Option AlertDict :=
  match critical_ranges test_name with
  | none => none
  | some (TestRanges.booleanAlert _ priority) =>
      some ⟨none, some test_name, none, none, some (priority.getD "HIGH"), none, none⟩
  | some (TestRanges.numeric r) =>
      match checkNumeric test_name value r with
      | none => none
      | some (severity, msg) =>
          some ⟨some patient_id, some test_name, some value, some r.unit,
                some severity, some msg, some now⟩

/-- One severity's entry in the escalation matrix (lines 62-83). -/
structure EscalationPolicy where
  primary : List String
  escalation_time : ℕ
  secondary : List String
  final : List String
deriving DecidableEq

/-- The static `escalation_matrix` built by `setup_escalation_matrix`
(lines 62-83); `none` models a severity absent from the dict. -/
def escalation_matrix : String → Option EscalationPolicy := fun severity =>
  match severity with
  | "CRITICAL" => some ⟨["attending_physician", "charge_nurse"], 5,
      ["medical_director", "nursing_supervisor"], ["chief_medical_officer"]⟩
  | "HIGH" => some ⟨["attending_physician"], 15,
      ["charge_nurse", "on_call_physician"], ["medical_director"]⟩
  | "MODERATE" => some ⟨["primary_nurse"], 30,
      ["attending_physician"], ["charge_nurse"]⟩
  | _ => none

/-- Embedding of `CriticalValuesEngine.send_alert` (lines 129-150), with the engine state
reduced to `alert_history`. The body runs inside `try/except`:
`alert["message"]` (line 133) raises `KeyError` if the key is absent, before
the append, so the history is unchanged and the result is `False`;
`alert["severity"]` (line 138) likewise raises after the append; a severity
with no escalation-matrix entry makes `escalation["primary"]` (line 141)
raise `TypeError` on `None`, also after the append. `notify_contact` and
`schedule_escalation` only log, so a found policy yields `True`. Returns
`(result, new alert_history)`. -/
def send_alert (alert_history : List AlertDict) (alert : AlertDict) :
    Bool × List AlertDict :=
  match alert.message with
  | none => (false, alert_history)
  | some _ =>
    let appended := alert_history ++ [alert]
    match alert.severity with
    | none => (false, appended)
    | some sev =>
      match escalation_matrix sev with
      | none => (false, appended)
      | some _ => (true, appended)

/-- One row of the DataFrame built by `generate_alert_summary`
(lines 171-182): the alert's fields plus the hardcoded
`acknowledged = False` and `response_time_minutes = None` columns. -/
structure SummaryRow where
  alert : AlertDict
  acknowledged : Bool
  response_time_minutes : Option ℚ
deriving DecidableEq

/-- Embedding of `CriticalValuesEngine.generate_alert_summary` (lines
171-182), restricted to the columns the metrics read, with its error paths.
An empty history returns the empty frame at once (lines 172-173). Otherwise
`pd.DataFrame(alert_history)` builds a frame whose columns are the union of
the entries' keys, and line 176 runs
`df['timestamp'] = pd.to_datetime(df['timestamp'])`, which raises: a
`KeyError` when no entry carries a `timestamp` key (the column does not
exist), or a parse error when some present timestamp string is not
parseable — parse success of the external pandas parser is abstracted as the
predicate argument `parses` (entries lacking the key among others become
missing values and do not raise). On success every entry becomes a row with
the hardcoded `acknowledged = False` and `response_time_minutes = None`
columns (lines 179-180). Errors are `Except.error`. -/
def generate_alert_summary (parses : String → Bool)
    (alert_history : List AlertDict) : Except String (List SummaryRow) :=
  if alert_history.isEmpty then Except.ok []
  else if alert_history.all (fun a => a.timestamp.isNone) then
    Except.error "KeyError: timestamp"
  else if alert_history.any (fun a =>
      match a.timestamp with
      | none => false
      | some t => !(parses t)) then
    Except.error "to_datetime: unparseable timestamp"
  else Except.ok (alert_history.map (fun a => ⟨a, false, none⟩))

/-- The metrics dict built by `calculate_metrics` (lines 189-197).
`average_response_time` is `none`, mirroring the mean over the identically
`None` `response_time_minutes` column. -/
structure Metrics where
  total_alerts : ℕ
  critical_alerts : ℕ
  high_alerts : ℕ
  average_response_time : Option ℚ
  acknowledgment_rate : ℚ
deriving DecidableEq

/-- Embedding of `CriticalValuesEngine.calculate_metrics` (lines 184-199).
An empty history returns the empty dict (lines 186-187, before the summary is
built), modelled as `Except.ok none`. Otherwise the summary DataFrame is
built — its exceptions propagate, there is no `try` here — and then
`df[df['severity'] == 'CRITICAL']` (line 192) raises a `KeyError` when no
entry carries a `severity` key (same column rule as the timestamp above; when
only some entries lack it, their missing values simply fail the comparison).
On success the metrics are computed, including the guarded acknowledgment
rate `sum(acknowledged) / len * 100 if len > 0 else 0`. -/
def calculate_metrics (parses : String → Bool)
    (alert_history : List AlertDict) : Except String (Option Metrics) :=
  if alert_history.isEmpty then Except.ok none
  else
    match generate_alert_summary parses alert_history with
    | Except.error e => Except.error e
    | Except.ok df =>
      if alert_history.all (fun a => a.severity.isNone) then
        Except.error "KeyError: severity"
      else
        Except.ok (some ⟨df.length,
          (df.filter (fun row => row.alert.severity = some "CRITICAL")).length,
          (df.filter (fun row => row.alert.severity = some "HIGH")).length,
          none,
          if 0 < df.length then
            (((df.filter (fun row => row.acknowledged)).length : ℚ)
              / (df.length : ℚ)) * 100
          else 0⟩)

/-- A concrete stand-in for the external pandas timestamp parser, accepting
exactly the ISO timestamp used in the concrete checks below. -/
def demo_parses : String → Bool := fun s => s == "2025-01-01T00:00:00"

/-- Substring test on character lists, by structural recursion (so that it
evaluates inside the kernel): `hasSubstr s sub` holds when `sub` occurs
contiguously in `s`. Used to state what an alert message does and does not
contain. -/
def hasSubstr : List Char → List Char → Bool
  | [], sub => sub.isEmpty
  | c :: rest, sub => sub.isPrefixOf (c :: rest) || hasSubstr rest sub

/-- Facts read off the concrete `critical_ranges` table, used to settle the
boundary claims: every numeric bound present in the table is nonzero (so
Python truthiness agrees with key presence), and the bounds of each entry obey
the spec's ordering invariant `panic_low < critical_low`,
`critical_low < critical_high`, `critical_low < panic_high`,
`panic_low < panic_high`. -/
theorem table_facts (name : String) (r : NumericRanges)
    (h : critical_ranges name = some (TestRanges.numeric r)) :
    (∀ x, r.low = some x → x ≠ 0) ∧
    (∀ x, r.panicHigh = some x → x ≠ 0) ∧
    (∀ pl cl, r.panicLow = some pl → r.low = some cl → pl < cl) ∧
    (∀ cl ch, r.low = some cl → r.high = some ch → cl < ch) ∧
    (∀ cl ph, r.low = some cl → r.panicHigh = some ph → cl < ph) ∧
    (∀ pl ph, r.panicLow = some pl → r.panicHigh = some ph → pl < ph) := by
  unfold critical_ranges at h
  split at h <;>
    first
      | exact Option.noConfusion h
      | (injection h with h1; injection h1; done)
      | (injection h with h1; injection h1 with h2; subst h2;
         refine ⟨?_, ?_, ?_, ?_, ?_, ?_⟩ <;> intros <;> simp_all <;>
           subst_vars <;> norm_num)

/-- A low bound does not fire when every present bound is at most the value
(in particular at the boundary `value = bound`, by strictness). -/
theorem lowBreach_false_of_le (bound : Option ℚ) (v : ℚ)
    (h : ∀ b, bound = some b → b ≤ v) : lowBreach bound v = false := by
  cases bound with
  | none => rfl
  | some b =>
    simp only [lowBreach, Bool.and_eq_false_iff, decide_eq_false_iff_not, not_lt]
    exact Or.inr (h b rfl)

/-- A high bound does not fire when the value is at most every present bound
(in particular at the boundary `value = bound`, by strictness). -/
theorem highBreach_false_of_le (bound : Option ℚ) (v : ℚ)
    (h : ∀ b, bound = some b → v ≤ b) : highBreach bound v = false := by
  cases bound with
  | none => rfl
  | some b =>
    simp only [highBreach, Bool.and_eq_false_iff, decide_eq_false_iff_not, not_lt]
    exact Or.inr (h b rfl)

/-- A present, nonzero low bound fires on any strictly smaller value. -/
theorem lowBreach_true_of_lt (b v : ℚ) (h0 : b ≠ 0) (hv : v < b) :
    lowBreach (some b) v = true := by
  simp [lowBreach, h0, hv]

/-- A present, nonzero high bound fires on any strictly larger value. -/
theorem highBreach_true_of_lt (b v : ℚ) (h0 : b ≠ 0) (hv : b < v) :
    highBreach (some b) v = true := by
  simp [highBreach, h0, hv]

/-- On a numeric table entry, `check_critical_value` is the threshold cascade
followed by construction of the full seven-key dict. -/
theorem check_critical_value_numeric (name : String) (r : NumericRanges)
    (hlook : critical_ranges name = some (TestRanges.numeric r))
    (v : ℚ) (pid now : String) :
    check_critical_value name v pid now =
      (checkNumeric name v r).map (fun p =>
        ⟨some pid, some name, some v, some r.unit, some p.1, some p.2, some now⟩) := by
  unfold check_critical_value
  rw [hlook]
  have hmap : ∀ o : Option (String × String),
      (match o with
       | none => none
       | some (severity, msg) =>
           some (⟨some pid, some name, some v, some r.unit, some severity,
                  some msg, some now⟩ : AlertDict)) =
      Option.map (fun p : String × String =>
        (⟨some pid, some name, some v, some r.unit, some p.1, some p.2,
          some now⟩ : AlertDict)) o := by
    intro o
    cases o with
    | none => rfl
    | some p => cases p; rfl
  exact hmap (checkNumeric name v r)

/-- On a boolean-alert table entry, `check_critical_value` immediately returns
the two-key dict holding only the fixed severity and the test name. -/
theorem check_critical_value_boolean (name : String) (b : Bool) (p : Option String)
    (hlook : critical_ranges name = some (TestRanges.booleanAlert b p))
    (v : ℚ) (pid now : String) :
    check_critical_value name v pid now =
      some ⟨none, some name, none, none, some (p.getD "HIGH"), none, none⟩ := by
  unfold check_critical_value
  rw [hlook]

/-- C1: for every numeric test whose `panic_high` and `critical_high` bounds
are both present, any value strictly above `panic_high` yields exactly one
alert, at the spec's PANIC tier (the source's severity string "CRITICAL",
`panicTierSeverity`) and never at the spec's CRITICAL tier (the source's
severity string "HIGH", `criticalTierSeverity`): the panic checks of lines
99-104 run before the critical checks of lines 106-110, first match wins. -/
theorem check_panic_high_priority (name : String) (r : NumericRanges) (ph : ℚ)
    (hlook : critical_ranges name = some (TestRanges.numeric r))
    (hph : r.panicHigh = some ph) (_hch : r.high.isSome = true)
    (v : ℚ) (hv : ph < v) (pid now : String) :
    Option.map AlertDict.severity (check_critical_value name v pid now) =
      some (some panicTierSeverity) ∧
    Option.map AlertDict.severity (check_critical_value name v pid now) ≠
      some (some criticalTierSeverity) := by
  obtain ⟨-, hph0, -, -, -, -⟩ := table_facts name r hlook
  rw [check_critical_value_numeric name r hlook]
  have hsev : ∃ msg, checkNumeric name v r = some (panicTierSeverity, msg) := by
    by_cases hl : lowBreach r.panicLow v = true
    · refine ⟨"PANIC LOW: " ++ (name ++ " = " ++ toString v ++ " " ++ r.unit
        ++ " (< " ++ toString (r.panicLow.getD 0) ++ ")"), ?_⟩
      unfold checkNumeric
      rw [if_pos hl]
    · have hh : highBreach r.panicHigh v = true := by
        rw [hph]; exact highBreach_true_of_lt ph v (hph0 ph hph) hv
      refine ⟨"PANIC HIGH: " ++ (name ++ " = " ++ toString v ++ " " ++ r.unit
        ++ " (> " ++ toString (r.panicHigh.getD 0) ++ ")"), ?_⟩
      unfold checkNumeric
      rw [if_neg hl, if_pos hh]
  obtain ⟨msg, hmsg⟩ := hsev
  rw [hmsg]
  exact ⟨rfl, by simp [panicTierSeverity, criticalTierSeverity]⟩

/-- Witness for C1: glucose at value 601, past both `critical_high = 500` and
`panic_high = 600`, is reported once at the panic tier. -/
theorem check_panic_high_priority_witness :
    critical_ranges "glucose" =
      some (TestRanges.numeric ⟨some 40, some 500, "mg/dL", some 30, some 600⟩) ∧
    (600 : ℚ) < 601 ∧
    Option.map AlertDict.severity (check_critical_value "glucose" 601 "P1" "t0") =
      some (some panicTierSeverity) ∧
    Option.map AlertDict.severity (check_critical_value "glucose" 601 "P1" "t0") ≠
      some (some criticalTierSeverity) :=
  ⟨rfl, by decide,
    check_panic_high_priority "glucose"
      ⟨some 40, some 500, "mg/dL", some 30, some 600⟩ 600 rfl rfl rfl 601
      (by decide) "P1" "t0"⟩

/-- C2: threshold comparisons are strict on every side. For every numeric
test with a present `critical_low` bound: (a) the value exactly equal to
`critical_low` yields no alert; (b) any value strictly below `critical_low`
yields an alert at the spec's CRITICAL tier (severity string "HIGH") or, when
the value is also past the panic bound, at the PANIC tier (severity string
"CRITICAL"); (c) a value exactly equal to `panic_low` never triggers the
panic side. -/
theorem check_strict_boundaries (name : String) (r : NumericRanges) (cl : ℚ)
    (hlook : critical_ranges name = some (TestRanges.numeric r))
    (hcl : r.low = some cl) (pid now : String) :
    check_critical_value name cl pid now = none ∧
    (∀ v : ℚ, v < cl →
      (Option.map AlertDict.severity (check_critical_value name v pid now) =
          some (some criticalTierSeverity) ∨
        Option.map AlertDict.severity (check_critical_value name v pid now) =
          some (some panicTierSeverity))) ∧
    (∀ pl : ℚ, r.panicLow = some pl →
      Option.map AlertDict.severity (check_critical_value name pl pid now) ≠
        some (some panicTierSeverity)) := by
  obtain ⟨hlow0, -, hplcl, hclch, hclph, hplph⟩ := table_facts name r hlook
  refine ⟨?_, ?_, ?_⟩
  · -- (a) the boundary value critical_low itself does not alert
    rw [check_critical_value_numeric name r hlook]
    have h1 : lowBreach r.panicLow cl = false :=
      lowBreach_false_of_le _ _ (fun b hb => le_of_lt (hplcl b cl hb hcl))
    have h2 : highBreach r.panicHigh cl = false :=
      highBreach_false_of_le _ _ (fun b hb => le_of_lt (hclph cl b hcl hb))
    have h3 : lowBreach r.low cl = false :=
      lowBreach_false_of_le _ _ (fun b hb => by
        rw [hcl] at hb
        exact le_of_eq (Option.some.inj hb).symm)
    have h4 : highBreach r.high cl = false :=
      highBreach_false_of_le _ _ (fun b hb => le_of_lt (hclch cl b hcl hb))
    have hcn : checkNumeric name cl r = none := by
      unfold checkNumeric
      rw [h1, h2, h3, h4]
      rfl
    rw [hcn]
    rfl
  · -- (b) any value strictly below critical_low alerts
    intro v hv
    rw [check_critical_value_numeric name r hlook]
    by_cases hl : lowBreach r.panicLow v = true
    · right
      have hcn : checkNumeric name v r =
          some (panicTierSeverity, "PANIC LOW: " ++ (name ++ " = " ++ toString v
            ++ " " ++ r.unit ++ " (< " ++ toString (r.panicLow.getD 0) ++ ")")) := by
        unfold checkNumeric
        rw [if_pos hl]
      rw [hcn]
      rfl
    · left
      have h2 : highBreach r.panicHigh v = false :=
        highBreach_false_of_le _ _ (fun b hb =>
          le_of_lt (lt_trans hv (hclph cl b hcl hb)))
      have h3 : lowBreach r.low v = true := by
        rw [hcl]
        exact lowBreach_true_of_lt cl v (hlow0 cl hcl) hv
      have hl' : lowBreach r.panicLow v = false := by simpa using hl
      have hcn : checkNumeric name v r =
          some (criticalTierSeverity, "CRITICAL LOW: " ++ (name ++ " = "
            ++ toString v ++ " " ++ r.unit ++ " (< " ++ toString (r.low.getD 0)
            ++ ")")) := by
        unfold checkNumeric
        rw [hl', h2, h3]
        rfl
      rw [hcn]
      rfl
  · -- (c) the boundary value panic_low itself does not trigger the panic side
    intro pl hpl
    rw [check_critical_value_numeric name r hlook]
    have h1 : lowBreach r.panicLow pl = false :=
      lowBreach_false_of_le _ _ (fun b hb => by
        rw [hpl] at hb
        exact le_of_eq (Option.some.inj hb).symm)
    have h2 : highBreach r.panicHigh pl = false :=
      highBreach_false_of_le _ _ (fun b hb => le_of_lt (hplph pl b hpl hb))
    by_cases h3 : lowBreach r.low pl = true
    · have hcn : checkNumeric name pl r =
          some (criticalTierSeverity, "CRITICAL LOW: " ++ (name ++ " = "
            ++ toString pl ++ " " ++ r.unit ++ " (< " ++ toString (r.low.getD 0)
            ++ ")")) := by
        unfold checkNumeric
        rw [h1, h2, h3]
        rfl
      rw [hcn]
      simp [criticalTierSeverity, panicTierSeverity]
    · by_cases h4 : highBreach r.high pl = true
      · have hcn : checkNumeric name pl r =
            some (criticalTierSeverity, "CRITICAL HIGH: " ++ (name ++ " = "
              ++ toString pl ++ " " ++ r.unit ++ " (> "
              ++ toString (r.high.getD 0) ++ ")")) := by
          unfold checkNumeric
          rw [h1, h2, (by simpa using h3 : lowBreach r.low pl = false), h4]
          rfl
        rw [hcn]
        simp [criticalTierSeverity, panicTierSeverity]
      · have hcn : checkNumeric name pl r = none := by
          unfold checkNumeric
          rw [h1, h2, (by simpa using h3 : lowBreach r.low pl = false),
            (by simpa using h4 : highBreach r.high pl = false)]
          rfl
        rw [hcn]
        simp

/-- Witness for C2: glucose with `critical_low = 40`; the boundary value 40
does not alert, 39 alerts at the critical tier, and the panic-low boundary 30
does not trigger the panic side. -/
theorem check_strict_boundaries_witness :
    critical_ranges "glucose" =
      some (TestRanges.numeric ⟨some 40, some 500, "mg/dL", some 30, some 600⟩) ∧
    check_critical_value "glucose" 40 "P1" "t0" = none ∧
    (39 : ℚ) < 40 ∧
    (Option.map AlertDict.severity (check_critical_value "glucose" 39 "P1" "t0") =
        some (some criticalTierSeverity) ∨
      Option.map AlertDict.severity (check_critical_value "glucose" 39 "P1" "t0") =
        some (some panicTierSeverity)) ∧
    Option.map AlertDict.severity (check_critical_value "glucose" 30 "P1" "t0") ≠
      some (some panicTierSeverity) :=
  ⟨rfl,
    (check_strict_boundaries "glucose"
      ⟨some 40, some 500, "mg/dL", some 30, some 600⟩ 40 rfl rfl "P1" "t0").1,
    by decide,
    (check_strict_boundaries "glucose"
      ⟨some 40, some 500, "mg/dL", some 30, some 600⟩ 40 rfl rfl "P1" "t0").2.1
      39 (by decide),
    (check_strict_boundaries "glucose"
      ⟨some 40, some 500, "mg/dL", some 30, some 600⟩ 40 rfl rfl "P1" "t0").2.2
      30 rfl⟩

/-- C3: the classifier is total. For every test-name string, every rational
value (including out-of-domain ones such as negative values for
magnitude-only tests) and every patient id, `check_critical_value` returns
no-alert or a single alert record carrying the test's name; in the embedding
every Python dict access on the classification path is guarded, so no
exception path exists and the function is defined on all inputs. -/
theorem check_critical_value_total (name : String) (v : ℚ) (pid now : String) :
    check_critical_value name v pid now = none ∨
    ∃ a, check_critical_value name v pid now = some a ∧ a.test = some name := by
  rcases h : critical_ranges name with - | tr
  · left
    unfold check_critical_value
    rw [h]
  · cases tr with
    | booleanAlert b p =>
      right
      exact ⟨_, check_critical_value_boolean name b p h v pid now, rfl⟩
    | numeric r =>
      rw [check_critical_value_numeric name r h]
      rcases hc : checkNumeric name v r with - | ⟨sev, msg⟩
      · exact Or.inl rfl
      · exact Or.inr ⟨_, rfl, rfl⟩

/-- C4: a test name absent from the reference range table yields no-alert for
every value and patient id (lines 87-88), with no exception. -/
theorem check_unknown_test_no_alert (name : String)
    (h : critical_ranges name = none) (v : ℚ) (pid now : String) :
    check_critical_value name v pid now = none := by
  unfold check_critical_value
  rw [h]

/-- Witness for C4: the spec's example, `classify("unknown_test", 5.0, "P1")`
is no-alert. -/
theorem check_unknown_test_no_alert_witness :
    critical_ranges "unknown_test" = none ∧
    check_critical_value "unknown_test" 5 "P1" "t0" = none :=
  ⟨rfl, check_unknown_test_no_alert "unknown_test" rfl 5 "P1" "t0"⟩

/-- C5 counterexample: at glucose = 35 the claim fails on the code. 35 is
below `critical_low = 40` but not below `panic_low = 30`, so the classifier
emits the CRITICAL LOW alert at the critical tier (severity string "HIGH"),
not a PANIC alert; "PANIC LOW" does not occur in the message (its `splitOn`
count is 1, i.e. zero occurrences). -/
theorem glucose35_not_panic :
    check_critical_value "glucose" 35 "P1" "t0" =
      some ⟨some "P1", some "glucose", some 35, some "mg/dL",
        some criticalTierSeverity,
        some "CRITICAL LOW: glucose = 35 mg/dL (< 40)", some "t0"⟩ ∧
    criticalTierSeverity ≠ panicTierSeverity ∧
    hasSubstr ("CRITICAL LOW: glucose = 35 mg/dL (< 40)").toList
      ("PANIC LOW").toList = false :=
  ⟨rfl, by decide, by rfl⟩

/-- C5 amended: `check_critical_value("glucose", 35, "P1")` returns one Alert
at the CRITICAL tier (the source's severity string "HIGH"), with value 35 and
a message containing "CRITICAL LOW" — not PANIC/"PANIC LOW" — because 35 is
below `critical_low = 40` but not below `panic_low = 30`. -/
theorem glucose35_critical_low :
    check_critical_value "glucose" 35 "P1" "t0" =
      some ⟨some "P1", some "glucose", some 35, some "mg/dL",
        some criticalTierSeverity,
        some "CRITICAL LOW: glucose = 35 mg/dL (< 40)", some "t0"⟩ ∧
    hasSubstr ("CRITICAL LOW: glucose = 35 mg/dL (< 40)").toList
      ("CRITICAL LOW").toList = true :=
  ⟨rfl, by rfl⟩

/-- C6 counterexample: for the boolean-alert test `positive_blood_culture`
the classifier does return an alert record, but that record does not have the
numeric alerts' attribute set: its `message`, `patient_id`, `value`, `unit`
and `timestamp` keys are all absent (line 94 builds only `severity` and
`test`). -/
theorem boolean_alert_missing_fields :
    (check_critical_value "positive_blood_culture" 1 "P1" "t0").isSome = true ∧
    (check_critical_value "positive_blood_culture" 1 "P1" "t0").bind
      AlertDict.message = none ∧
    (check_critical_value "positive_blood_culture" 1 "P1" "t0").bind
      AlertDict.patient_id = none ∧
    (check_critical_value "positive_blood_culture" 1 "P1" "t0").bind
      AlertDict.value = none ∧
    (check_critical_value "positive_blood_culture" 1 "P1" "t0").bind
      AlertDict.unit = none ∧
    (check_critical_value "positive_blood_culture" 1 "P1" "t0").bind
      AlertDict.timestamp = none :=
  ⟨rfl, rfl, rfl, rfl, rfl, rfl⟩

/-- C6 amended: for every boolean-alert test (`positive_blood_culture`,
`csf_positive`) and every value, `check_critical_value` immediately returns
an alert with the definition's fixed severity "CRITICAL", regardless of the
value — but the record carries only the `severity` and `test` keys; the
patient id, value, unit, message and timestamp of numeric alerts are absent. -/
theorem boolean_alert_immediate (name : String)
    (h : name = "positive_blood_culture" ∨ name = "csf_positive")
    (v : ℚ) (pid now : String) :
    check_critical_value name v pid now =
      some ⟨none, some name, none, none, some "CRITICAL", none, none⟩ := by
  rcases h with rfl | rfl <;> rfl

/-- Witness for the amended C6, at `positive_blood_culture` with value 2. -/
theorem boolean_alert_immediate_witness :
    ("positive_blood_culture" = "positive_blood_culture" ∨
      "positive_blood_culture" = "csf_positive") ∧
    check_critical_value "positive_blood_culture" 2 "P9" "t1" =
      some ⟨none, some "positive_blood_culture", none, none, some "CRITICAL",
        none, none⟩ :=
  ⟨Or.inl rfl,
    boolean_alert_immediate "positive_blood_culture" (Or.inl rfl) 2 "P9" "t1"⟩

/-- When neither panic bound fires, the cascade can only produce a
critical-tier alert or no alert at all. -/
theorem checkNumeric_no_panic (test_name : String) (v : ℚ) (r : NumericRanges)
    (h1 : lowBreach r.panicLow v = false)
    (h2 : highBreach r.panicHigh v = false) :
    checkNumeric test_name v r = none ∨
    ∃ msg, checkNumeric test_name v r = some (criticalTierSeverity, msg) := by
  by_cases h3 : lowBreach r.low v = true
  · right
    refine ⟨"CRITICAL LOW: " ++ (test_name ++ " = " ++ toString v ++ " "
      ++ r.unit ++ " (< " ++ toString (r.low.getD 0) ++ ")"), ?_⟩
    unfold checkNumeric
    rw [h1, h2, h3]
    rfl
  · by_cases h4 : highBreach r.high v = true
    · right
      refine ⟨"CRITICAL HIGH: " ++ (test_name ++ " = " ++ toString v ++ " "
        ++ r.unit ++ " (> " ++ toString (r.high.getD 0) ++ ")"), ?_⟩
      unfold checkNumeric
      rw [h1, h2, (by simpa using h3 : lowBreach r.low v = false), h4]
      rfl
    · left
      unfold checkNumeric
      rw [h1, h2, (by simpa using h3 : lowBreach r.low v = false),
        (by simpa using h4 : highBreach r.high v = false)]
      rfl

/-- C7: for every numeric test whose `panic_low` bound is absent but whose
`panic_high` bound is present (creatinine, inr, troponin, bnp), no value at
or below `panic_high` — in particular any value below the normal range — is
ever classified at the PANIC tier: the absent low side never triggers. -/
theorem absent_panic_low_never_panics (name : String) (r : NumericRanges)
    (ph : ℚ) (hlook : critical_ranges name = some (TestRanges.numeric r))
    (hpl : r.panicLow = none) (hph : r.panicHigh = some ph)
    (v : ℚ) (hv : v ≤ ph) (pid now : String) :
    Option.map AlertDict.severity (check_critical_value name v pid now) ≠
      some (some panicTierSeverity) := by
  rw [check_critical_value_numeric name r hlook]
  have h1 : lowBreach r.panicLow v = false := by rw [hpl]; rfl
  have h2 : highBreach r.panicHigh v = false :=
    highBreach_false_of_le _ _ (fun b hb => by
      rw [hph] at hb
      exact (Option.some.inj hb) ▸ hv)
  rcases checkNumeric_no_panic name v r h1 h2 with hcn | ⟨msg, hcn⟩ <;> rw [hcn]
  · simp
  · simp [criticalTierSeverity, panicTierSeverity]

/-- Witness for C7: creatinine (no `panic_low`, `panic_high = 10`) at value
8, which is below `panic_high`, is not classified at the panic tier (it is a
CRITICAL HIGH at severity "HIGH"). -/
theorem absent_panic_low_never_panics_witness :
    critical_ranges "creatinine" =
      some (TestRanges.numeric ⟨none, some 7.0, "mg/dL", none, some 10.0⟩) ∧
    (8 : ℚ) ≤ 10.0 ∧
    Option.map AlertDict.severity
        (check_critical_value "creatinine" 8 "P1" "t0") ≠
      some (some panicTierSeverity) :=
  ⟨rfl, by norm_num,
    absent_panic_low_never_panics "creatinine"
      ⟨none, some 7.0, "mg/dL", none, some 10.0⟩ 10.0 rfl rfl rfl 8
      (by norm_num) "P1" "t0"⟩

/-- C8: an alert record (with its data-model `message` and `severity`
attributes present) whose severity has no entry in the escalation matrix
makes `send_alert` report failure — the `escalation["primary"]` access on
`None` raises inside the `try` — but the alert has already been appended to
`alert_history` (line 134 runs before line 137), so the routing failure
never drops the alert from the ledger. -/
theorem unrouted_alert_still_recorded (alert_history : List AlertDict)
    (a : AlertDict) (m sev : String)
    (hm : a.message = some m) (hs : a.severity = some sev)
    (hpol : escalation_matrix sev = none) :
    send_alert alert_history a = (false, alert_history ++ [a]) := by
  unfold send_alert
  rw [hm, hs]
  show (match escalation_matrix sev with
        | none => (false, alert_history ++ [a])
        | some _ => (true, alert_history ++ [a])) =
      (false, alert_history ++ [a])
  rw [hpol]

/-- Witness for C8: an alert with severity "SEVERE", which has no
escalation-matrix entry: `send_alert` returns `False` yet the alert is in
the ledger. -/
theorem unrouted_alert_still_recorded_witness :
    (AlertDict.mk (some "P1") (some "glucose") (some 601) (some "mg/dL")
      (some "SEVERE") (some "m") (some "t0")).message = some "m" ∧
    (AlertDict.mk (some "P1") (some "glucose") (some 601) (some "mg/dL")
      (some "SEVERE") (some "m") (some "t0")).severity = some "SEVERE" ∧
    escalation_matrix "SEVERE" = none ∧
    send_alert []
        (AlertDict.mk (some "P1") (some "glucose") (some 601) (some "mg/dL")
          (some "SEVERE") (some "m") (some "t0")) =
      (false, [AlertDict.mk (some "P1") (some "glucose") (some 601)
        (some "mg/dL") (some "SEVERE") (some "m") (some "t0")]) :=
  ⟨rfl, rfl, rfl,
    unrouted_alert_still_recorded []
      (AlertDict.mk (some "P1") (some "glucose") (some 601) (some "mg/dL")
        (some "SEVERE") (some "m") (some "t0")) "m" "SEVERE" rfl rfl rfl⟩

/-- Rows of a successfully built summary all carry the hardcoded
`acknowledged = False` (line 179), so the acknowledged filter is empty. -/
theorem summary_rows_all_unacknowledged (alert_history : List AlertDict) :
    ((alert_history.map (fun a => (⟨a, false, none⟩ : SummaryRow))).filter
      (fun row => row.acknowledged)) = [] := by
  induction alert_history with
  | nil => rfl
  | cons x xs ih =>
    rw [List.map_cons, List.filter_cons_of_neg (by simp)]
    exact ih

/-- A successful summary is exactly the row-per-entry mapping: the timestamp
conversion of line 176 either raises or leaves the rows as built. -/
theorem generate_alert_summary_ok (parses : String → Bool)
    (alert_history : List AlertDict) (df : List SummaryRow)
    (h : generate_alert_summary parses alert_history = Except.ok df) :
    df = alert_history.map (fun a => ⟨a, false, none⟩) := by
  cases alert_history with
  | nil =>
    injection h with h'
    rw [← h']
    rfl
  | cons y ys =>
    unfold generate_alert_summary at h
    rw [if_neg (by simp)] at h
    by_cases h2 : (y :: ys).all (fun a => a.timestamp.isNone) = true
    · rw [if_pos h2] at h
      exact Except.noConfusion h
    · rw [if_neg h2] at h
      by_cases h3 : (y :: ys).any (fun a =>
          match a.timestamp with
          | none => false
          | some t => !(parses t)) = true
      · rw [if_pos h3] at h
        exact Except.noConfusion h
      · rw [if_neg h3] at h
        exact (Except.ok.inj h).symm

/-- C9 counterexample: with an empty alert history, `calculate_metrics`
returns the empty dict (line 187) — there is no `acknowledgment_rate` entry
at all, so the reported rate is not the claimed 0 (nor anything else). -/
theorem empty_history_no_rate :
    calculate_metrics demo_parses [] = Except.ok none ∧
    Except.map (Option.map Metrics.acknowledgment_rate)
        (calculate_metrics demo_parses []) ≠ Except.ok (some 0) :=
  ⟨rfl, by simp [calculate_metrics, Except.map]⟩

/-- C9 amended: when the history is nonempty and the summary DataFrame is
successfully built (at least one entry carries a timestamp key, every
present timestamp parses, and at least one entry carries a severity key so
line 192's column access succeeds), the metrics report
`acknowledgment_rate = (acknowledged count / total) * 100`, which is 0
because `generate_alert_summary` hardcodes `acknowledged = False` (and hence
also equals the claim's un-scaled `acknowledged / total`); the division is
guarded by `len(df) > 0`, so no division by zero occurs. When the history is
empty, `calculate_metrics` returns the empty dict — no `acknowledgment_rate`
key at all — rather than reporting a rate of 0. When the timestamp
conversion or the severity-column access raises, the exception propagates
and no rate is reported. -/
theorem metrics_ack_rate (parses : String → Bool)
    (alert_history : List AlertDict) :
    (alert_history = [] →
      calculate_metrics parses alert_history = Except.ok none) ∧
    (∀ e, alert_history ≠ [] →
      generate_alert_summary parses alert_history = Except.error e →
      calculate_metrics parses alert_history = Except.error e) ∧
    (∀ df, alert_history ≠ [] →
      generate_alert_summary parses alert_history = Except.ok df →
      alert_history.all (fun a => a.severity.isNone) = false →
      Except.map (Option.map Metrics.acknowledgment_rate)
          (calculate_metrics parses alert_history) =
        Except.ok (some
          ((((df.filter (fun row => row.acknowledged)).length : ℚ)
            / ((df.length : ℚ))) * 100)) ∧
      Except.map (Option.map Metrics.acknowledgment_rate)
          (calculate_metrics parses alert_history) = Except.ok (some 0)) := by
  refine ⟨?_, ?_, ?_⟩
  · intro h
    subst h
    rfl
  · intro e hne herr
    obtain ⟨x, xs, rfl⟩ : ∃ y ys, alert_history = y :: ys := by
      cases alert_history with
      | nil => exact absurd rfl hne
      | cons y ys => exact ⟨y, ys, rfl⟩
    unfold calculate_metrics
    rw [herr]
    rfl
  · intro df hne hok hsev
    obtain ⟨x, xs, rfl⟩ : ∃ y ys, alert_history = y :: ys := by
      cases alert_history with
      | nil => exact absurd rfl hne
      | cons y ys => exact ⟨y, ys, rfl⟩
    have hdf := generate_alert_summary_ok parses (x :: xs) df hok
    have hfilter : df.filter (fun row => row.acknowledged) = [] := by
      rw [hdf]
      exact summary_rows_all_unacknowledged (x :: xs)
    have hlen : df.length = xs.length + 1 := by
      rw [hdf]
      simp
    unfold calculate_metrics
    rw [hok, hsev]
    constructor <;> simp [Except.map, hfilter, hlen]

/-- Witness for C9 (amended): a one-alert history whose timestamp parses
reports rate 0 and no division error. -/
theorem metrics_ack_rate_witness :
    ([AlertDict.mk (some "P1") (some "glucose") (some 35) (some "mg/dL")
        (some "HIGH") (some "m") (some "2025-01-01T00:00:00")] :
      List AlertDict) ≠ [] ∧
    generate_alert_summary demo_parses
        [AlertDict.mk (some "P1") (some "glucose") (some 35) (some "mg/dL")
          (some "HIGH") (some "m") (some "2025-01-01T00:00:00")] =
      Except.ok [⟨AlertDict.mk (some "P1") (some "glucose") (some 35)
        (some "mg/dL") (some "HIGH") (some "m")
        (some "2025-01-01T00:00:00"), false, none⟩] ∧
    ([AlertDict.mk (some "P1") (some "glucose") (some 35) (some "mg/dL")
        (some "HIGH") (some "m") (some "2025-01-01T00:00:00")] :
      List AlertDict).all (fun a => a.severity.isNone) = false ∧
    Except.map (Option.map Metrics.acknowledgment_rate)
        (calculate_metrics demo_parses
          [AlertDict.mk (some "P1") (some "glucose") (some 35) (some "mg/dL")
            (some "HIGH") (some "m") (some "2025-01-01T00:00:00")]) =
      Except.ok (some 0) :=
  ⟨by simp, rfl, rfl,
    ((metrics_ack_rate demo_parses
        [AlertDict.mk (some "P1") (some "glucose") (some 35) (some "mg/dL")
          (some "HIGH") (some "m") (some "2025-01-01T00:00:00")]).2.2
      [⟨AlertDict.mk (some "P1") (some "glucose") (some 35) (some "mg/dL")
        (some "HIGH") (some "m") (some "2025-01-01T00:00:00"), false, none⟩]
      (by simp) rfl rfl).2⟩

/-- C10: for every boolean-alert test, feeding `check_critical_value`'s
result to `send_alert` records nothing and notifies no one: the returned
record has only the `severity` and `test` keys, the `alert["message"]`
access of line 133 hits the missing key (a `KeyError`, caught by the
`except`), `send_alert` returns `False`, and `alert_history` is unchanged. -/
theorem boolean_alert_not_recorded (name : String)
    (h : name = "positive_blood_culture" ∨ name = "csf_positive")
    (v : ℚ) (pid now : String) (alert_history : List AlertDict) :
    check_critical_value name v pid now =
      some ⟨none, some name, none, none, some "CRITICAL", none, none⟩ ∧
    (AlertDict.mk none (some name) none none (some "CRITICAL") none
      none).message = none ∧
    send_alert alert_history
        ⟨none, some name, none, none, some "CRITICAL", none, none⟩ =
      (false, alert_history) := by
  rcases h with rfl | rfl <;> exact ⟨rfl, rfl, rfl⟩

/-- Witness for C10: `csf_positive` with value 3 against a one-element
ledger; `send_alert` fails and the ledger is unchanged. -/
theorem boolean_alert_not_recorded_witness :
    ("csf_positive" = "positive_blood_culture" ∨
      "csf_positive" = "csf_positive") ∧
    check_critical_value "csf_positive" 3 "P2" "t2" =
      some ⟨none, some "csf_positive", none, none, some "CRITICAL", none,
        none⟩ ∧
    (AlertDict.mk none (some "csf_positive") none none (some "CRITICAL") none
      none).message = none ∧
    send_alert
        [AlertDict.mk (some "P1") (some "glucose") (some 35) (some "mg/dL")
          (some "HIGH") (some "m") (some "t0")]
        ⟨none, some "csf_positive", none, none, some "CRITICAL", none, none⟩ =
      (false,
        [AlertDict.mk (some "P1") (some "glucose") (some 35) (some "mg/dL")
          (some "HIGH") (some "m") (some "t0")]) :=
  ⟨Or.inr rfl,
    boolean_alert_not_recorded "csf_positive" (Or.inr rfl) 3 "P2" "t2"
      [AlertDict.mk (some "P1") (some "glucose") (some 35) (some "mg/dL")
        (some "HIGH") (some "m") (some "t0")]⟩

section SanityChecks

/- Concrete runs of the embedding, checked by evaluation, mirroring the
demo values in `simulate_lab_results` and the worked examples of the
repository's documentation. -/

example : check_critical_value "glucose" 35 "P1" "t0" =
    some ⟨some "P1", some "glucose", some 35, some "mg/dL", some "HIGH",
          some "CRITICAL LOW: glucose = 35 mg/dL (< 40)", some "t0"⟩ := by
  rfl

example : check_critical_value "unknown_test" 5 "P1" "t0" = none := by rfl

example : check_critical_value "positive_blood_culture" 1 "P1" "t0" =
    some ⟨none, some "positive_blood_culture", none, none, some "CRITICAL",
          none, none⟩ := by rfl

example : check_critical_value "glucose" 601 "P1" "t0" =
    some ⟨some "P1", some "glucose", some 601, some "mg/dL", some "CRITICAL",
          some "PANIC HIGH: glucose = 601 mg/dL (> 600)", some "t0"⟩ := by
  rfl

example : (check_critical_value "glucose" 25 "P1" "t0").map AlertDict.severity =
    some (some "CRITICAL") := by rfl

example : calculate_metrics demo_parses [] = Except.ok none := by rfl

example : generate_alert_summary demo_parses
    [AlertDict.mk (some "P1") (some "glucose") (some 35) (some "mg/dL")
      (some "HIGH") (some "m") (some "t0")] =
    Except.error "to_datetime: unparseable timestamp" := by rfl

example : calculate_metrics demo_parses
    [AlertDict.mk none (some "positive_blood_culture") none none
      (some "CRITICAL") none none] =
    Except.error "KeyError: timestamp" := by rfl

end SanityChecks
